import Mathlib

/-
Verification of the toonstream-render sync core against its specification.

The JavaScript source (src/toonstream-supabase-sync.js and the proxy manager
module) is embedded shallowly: every pure computation is translated to an
executable Lean function, stateful code (the retry-schedule table, the proxy
pool, the resolution engine with its closed-over visited set) is translated to
explicit state passing, and every fallible operation returns Option or Except.
JavaScript string operations (includes, startsWith, toLowerCase) are modelled
by structurally recursive functions over the underlying character lists so that
all definitions evaluate inside the kernel.
-/

/-! ## String primitives

Models of the JavaScript string operations used by the source.  They operate
on the character list underlying a String; lowerChar models
String.prototype.toLowerCase on the ASCII range (every character the source
compares against is ASCII or already lowercase). -/

/-- Model of JavaScript list-level substring search: true when sub occurs as a
contiguous infix. -/
def listInfixOf (sub : List Char) : List Char → Bool
  | [] => sub.isPrefixOf []
  | c :: rest => sub.isPrefixOf (c :: rest) || listInfixOf sub rest

/-- Model of JavaScript String.prototype.includes. -/
def strContains (s sub : String) : Bool := listInfixOf sub.data s.data

/-- ASCII lowercasing of one character (the fragment of toLowerCase the source
relies on). -/
def lowerChar (c : Char) : Char :=
  if 65 ≤ c.toNat && c.toNat ≤ 90 then Char.ofNat (c.toNat + 32) else c

/-- Model of JavaScript String.prototype.toLowerCase (ASCII range). -/
def strToLower (s : String) : String := ⟨s.data.map lowerChar⟩

/-- Model of JavaScript String.prototype.startsWith. -/
def strStartsWith (s pat : String) : Bool := pat.data.isPrefixOf s.data

/-! ## Configuration constants

From the CONFIG object (src/toonstream-supabase-sync.js lines 24-35) with the
default environment: homeUrl = https://toonstream.one/home/, maxRetries = 3,
embedMaxDepth = 3. -/

/-- CONFIG.maxRetries (line 28). -/
def CONFIG_maxRetries : Nat := 3

/-- CONFIG.embedMaxDepth (line 30, default EMBED_MAX_DEPTH = 3). -/
def CONFIG_embedMaxDepth : Nat := 3

/-- TOONSTREAM_HOST (lines 119-125): hostname of CONFIG.homeUrl with a leading
www. stripped; for the default configuration this is toonstream.one. -/
def TOONSTREAM_HOST : String := "toonstream.one"

/-- TOONSTREAM_ORIGIN (lines 127-133): origin of CONFIG.homeUrl; for the
default configuration this is https://toonstream.one. -/
def TOONSTREAM_ORIGIN : String := "https://toonstream.one"

/-! ## Slug normalization (cleanSlug, lines 200-222) and URL builders
(buildSeriesUrlFromSlug lines 287-293, buildEpisodeUrl lines 295-301) -/

/-- Decides whether c matches the JavaScript regex class [^\w\s-] complement,
that is, whether the character survives the second replace of cleanSlug:
word characters [A-Za-z0-9_], whitespace, and the dash are kept. -/
def keptSlugChar (c : Char) : Bool := c.isAlphanum || c == '_' || c.isWhitespace || c == '-'

/-- Consumes one or more decimal digits; returns the remaining characters, or
none when the input does not begin with a digit (models a \d+ regex atom). -/
def consumeDigits (l : List Char) : Option (List Char) :=
  match l with
  | c :: rest => if c.isDigit then some (rest.dropWhile Char.isDigit) else none
  | [] => none

/-- Matches the regex tail \d+x\d+ followed by end of input. -/
def seasonEpisodeTail (l : List Char) : Bool :=
  match consumeDigits l with
  | some ('x' :: rest2) =>
    match consumeDigits rest2 with
    | some [] => true
    | _ => false
  | _ => false

/-- The regex test on line 212 of cleanSlug:
matches naruto-shipp[u]?den(-\d+x\d+)? anchored at both ends (the i flag is
immaterial because cleanSlug applies it to an already lowercased string). -/
def narutoSlugRegex (s : String) : Bool :=
  let l := s.data
  let afterBase : Option (List Char) :=
    if "naruto-shippuden".data.isPrefixOf l then some (l.drop 16)
    else if "naruto-shippden".data.isPrefixOf l then some (l.drop 15)
    else none
  match afterBase with
  | some [] => true
  | some ('-' :: rest) => seasonEpisodeTail rest
  | _ => false

/-- Collapses every run of two or more consecutive dashes to a single dash
(the replace of -+ by - on line 220). -/
def collapseDashes : List Char → List Char
  | [] => []
  | [c] => [c]
  | c :: d :: rest =>
    if c == '-' && d == '-' then collapseDashes (d :: rest)
    else c :: collapseDashes (d :: rest)

/-- Strips leading and trailing dashes (the replace on line 221). -/
def trimDashes (l : List Char) : List Char :=
  ((l.dropWhile (fun c => c == '-')).reverse.dropWhile (fun c => c == '-')).reverse

/-- The generic tail of cleanSlug (lines 216-221): drop quote characters, drop
everything outside [\w\s-], replace whitespace runs by a dash, collapse dash
runs, trim dashes.  The source first rewrites \s+ to a single dash and then
rewrites -+ to a single dash; mapping each whitespace character to a dash and
then collapsing dash runs yields the same composite (both reduce every maximal
run over the alphabet of whitespace and dash characters to one dash). -/
def genericSlugClean (s : String) : String :=
  let noQuotes := s.data.filter (fun c => !(c == Char.ofNat 39 || c == Char.ofNat 34))
  let kept := noQuotes.filter keptSlugChar
  let dashed := kept.map (fun c => if c.isWhitespace then '-' else c)
  ⟨trimDashes (collapseDashes dashed)⟩

/-- cleanSlug (lines 200-222).  A falsy (empty) name yields the literal item;
any lowercased name containing one of the four Naruto Shippuden spellings, or
matching the anchored slug regex, yields the fixed slug naruto-shippden;
every other name goes through the generic cleaning chain. -/
def cleanSlug (name : String) : String :=
  if name == "" then "item"
  else
    let cleaned := strToLower name
    if strContains cleaned "naruto shippūden" || strContains cleaned "naruto shippuden"
        || strContains cleaned "naruto-shippuden" || strContains cleaned "naruto-shippden" then
      "naruto-shippden"
    else if narutoSlugRegex cleaned then
      "naruto-shippden"
    else
      genericSlugClean cleaned

/-- buildSeriesUrlFromSlug (lines 287-293): null for a falsy slug; the stored
slug naruto-shippden is mapped back to naruto-shippuden; every other slug is
embedded unchanged. -/
def buildSeriesUrlFromSlug (seriesSlug : String) : Option String :=
  if seriesSlug == "" then none
  else
    let urlSlug := if seriesSlug == "naruto-shippden" then "naruto-shippuden" else seriesSlug
    some (TOONSTREAM_ORIGIN ++ "/series/" ++ urlSlug ++ "/")

/-- buildEpisodeUrl (lines 295-301): null for a falsy slug; the stored slug
naruto-shippden is mapped back to naruto-shippuden; every other slug is
embedded unchanged, followed by -seasonxepisode. -/
def buildEpisodeUrl (seriesSlug : String) (season episode : Nat) : Option String :=
  if seriesSlug == "" then none
  else
    let urlSlug := if seriesSlug == "naruto-shippden" then "naruto-shippuden" else seriesSlug
    some (TOONSTREAM_ORIGIN ++ "/episode/" ++ urlSlug ++ "-" ++ toString season ++ "x"
      ++ toString episode ++ "/")

/-! ## URL classifiers of the resolution engine
(extractRealVideoUrl, lines 742-973) -/

/-- Simplified model of the hostname computed by the WHATWG URL parser for the
scheme://[userinfo@]host[:port][/path...] shape that every URL the source
handles takes: the characters after the scheme separator up to the first
slash, question mark or hash, with userinfo and port stripped and the result
lowercased.  URLs without a scheme separator (about:blank, data URIs, strings
the URL constructor rejects) yield none, matching the catch branch of
isToonstreamUrl which returns false for them. -/
def afterSchemeSep : List Char → Option (List Char)
  | [] => none
  | c :: rest =>
    if c == ':' && "//".data.isPrefixOf rest then some (rest.drop 2)
    else afterSchemeSep rest

/-- Hostname extraction as described at afterSchemeSep. -/
def hostOf (url : String) : Option String :=
  match afterSchemeSep url.data with
  | none => none
  | some rest =>
    let authority := rest.takeWhile (fun c => !(c == '/' || c == '?' || c == '#'))
    let afterUser := (authority.reverse.takeWhile (fun c => !(c == '@'))).reverse
    let host := afterUser.takeWhile (fun c => !(c == ':'))
    some ⟨host.map lowerChar⟩

/-- isToonstreamUrl (lines 251-259): hostname with leading www. stripped equals
TOONSTREAM_HOST; false when URL parsing fails. -/
def isToonstreamUrl (url : String) : Bool :=
  match hostOf url with
  | some h =>
    let stripped : String := if "www.".data.isPrefixOf h.data then ⟨h.data.drop 4⟩ else h
    stripped == TOONSTREAM_HOST
  | none => false

/-- needsFollow (lines 746-755): redirection markers, the source site itself,
and embed or player path segments. -/
def needsFollow (url : String) : Bool :=
  if url == "" then false
  else if strContains url "trembed" then true
  else if strContains url "trid=" then true
  else if strContains url "trtype=" then true
  else if isToonstreamUrl url then true
  else if strContains url "/embed/" || strContains url "/player/" || strContains url "/e/" then true
  else false

/-- The video file extension allowlist of isVideoUrl (line 760). -/
def videoExtensions : List String := [".mp4", ".m3u8", ".webm", ".mkv", ".avi", ".mov", ".flv"]

/-- isVideoUrl (lines 757-771): extension allowlist on the lowercased URL,
streaming path patterns, and known streaming host substrings. -/
def isVideoUrl (url : String) : Bool :=
  if url == "" then false
  else
    let lowerUrl := strToLower url
    videoExtensions.any (fun ext => strContains lowerUrl ext)
      || strContains url "/video/" || strContains url "/stream/" || strContains url "/hls/"
      || strContains url "googlevideo.com" || strContains url "googleusercontent.com"
      || strContains url "streamtape" || strContains url "filemoon" || strContains url "voe.sx"
      || strContains url "dood" || strContains url "mixdrop" || strContains url "streamlare"

/-- The iframeNotToonstream test of resolve (lines 893-896): no source-site
substring and none of the three redirection-marker substrings. -/
def iframeNotToonstream (url : String) : Bool :=
  !(strContains url "toonstream.one") && !(strContains url "trembed")
    && !(strContains url "trid=") && !(strContains url "trtype=")

/-- The isVideoPlayer test of resolve (lines 899-926): known video-player host
or path substrings. -/
def isVideoPlayer (url : String) : Bool :=
  strContains url "play." || strContains url "player." || strContains url "/video/"
    || strContains url "/embed/" || strContains url "/e/" || strContains url "/t/"
    || strContains url "zephyrflick" || strContains url "filemoon" || strContains url "streamtape"
    || strContains url "dood" || strContains url "voe.sx" || strContains url "mixdrop"
    || strContains url "emturbovid" || strContains url "turbovid" || strContains url "vidmoly"
    || strContains url "streamwish" || strContains url "vidhide" || strContains url "vidguard"
    || strContains url "vidsrc" || strContains url "embedsito" || strContains url "upstream"
    || strContains url "mp4upload" || strContains url "okru" || strContains url "sbplay"
    || strContains url "streamsb" || strContains url "vidcloud" || strContains url "goload"
    || strContains url "gogo"

/-! ## Documents and candidate pickers

A fetched document is abstracted to the three candidate lists the resolver
inspects, each entry being the result of normalizeUrl on the corresponding
element attribute (none when the attribute is missing or normalizeUrl failed;
normalizeUrl output is always an absolute URL, so blob and scheme checks apply
to the carried strings directly). -/

/-- Abstraction of one fetched document: the normalized src attributes of its
video and source elements (in document order), of its iframes, and the
normalized candidate strings produced by the script-pattern scan of
pickFromScripts (in discovery order). -/
structure Page where
  videoSrcs : List (Option String)
  iframeSrcs : List (Option String)
  scriptCandidates : List (Option String)
deriving DecidableEq

/-- pickDirectVideo (lines 796-808): the first video or source element whose
normalized src is truthy and not a blob URL. -/
def pickDirectVideo (page : Page) : Option String :=
  page.videoSrcs.findSome? (fun src? =>
    match src? with
    | some u => if u == "" then none else if strStartsWith u "blob:" then none else some u
    | none => none)

/-- pickIframe (lines 810-826): the first iframe whose normalized src is
truthy, differs from the current URL and has not been visited. -/
def pickIframe (page : Page) (url : String) (visited : List String) : Option String :=
  (page.iframeSrcs.filterMap (fun src? =>
    match src? with
    | some u => if u == "" || u == url || visited.contains u then none else some u
    | none => none)).head?

/-- pickFromScripts (lines 828-880): among the truthy, non-current, unvisited
script candidates, prefer the first satisfying isVideoUrl, then the first
satisfying the follow heuristics or containing an embed or player segment,
then the first candidate overall. -/
def pickFromScripts (page : Page) (url : String) (visited : List String) : Option String :=
  let allCandidates := page.scriptCandidates.filterMap (fun c? =>
    match c? with
    | some u => if u == "" || u == url || visited.contains u then none else some u
    | none => none)
  match allCandidates.find? isVideoUrl with
  | some v => some v
  | none =>
    match allCandidates.find? (fun u =>
        needsFollow u || strContains u "/embed/" || strContains u "/player/") with
    | some e => some e
    | none => allCandidates.head?

/-! ## The recursive resolver (resolve, lines 773-968)

The JavaScript closure mutates a shared visited set and returns a string or
null; the model threads the visited list explicitly and additionally records
the list of URLs handed to the fetch layer, so that fetch-count properties are
statable.  Recursion is bounded: every recursive call site in the source is
guarded by depth < MAX_DEPTH, so the model recurses structurally on a fuel
argument that the canonical wrapper resolveCall instantiates with
maxDepth + 2 - depth, which the guard keeps from ever reaching the
out-of-fuel base case (resolveCall_step below proves the wrapper satisfies
exactly the recursion equation of the source). -/

/-- MAX_DEPTH (line 744): the configured embed depth plus 2. -/
def MAX_DEPTH (embedMaxDepth : Nat) : Nat := embedMaxDepth + 2

/-- Result of one resolve call: the returned URL (none models null), the
visited set after the call, and the URLs fetched during the call in order. -/
structure ResolveResult where
  result : Option String
  visited : List String
  fetched : List String
deriving DecidableEq

/-- Prepends the URL fetched at the current node to the fetch trace of a
recursive result. -/
def withFetched (url : String) (r : ResolveResult) : ResolveResult :=
  { r with fetched := url :: r.fetched }

/-- The body of resolve after its terminal checks (lines 778-967): mark the
URL visited, fetch, and run the direct-video, iframe, script and fallback
stages; recur stands for the recursive call at depth + 1. -/
def resolveBody (f : String → Option Page) (maxDepth : Nat)
    (recur : String → List String → ResolveResult)
    (depth : Nat) (url : String) (visited : List String) : ResolveResult :=
  let vis := url :: visited
  match f url with
  | none => ⟨none, vis, [url]⟩
  | some page =>
    let direct := pickDirectVideo page
    let ifr? := pickIframe page url vis
    let script? := pickFromScripts page url vis
    let finalRes : ResolveResult := ⟨some (direct.getD url), vis, [url]⟩
    let fallbackRes : ResolveResult :=
      if depth < maxDepth then
        match ifr? with
        | some ifr => withFetched url (recur ifr vis)
        | none => finalRes
      else finalRes
    let scriptRes : ResolveResult :=
      match script? with
      | some s =>
        if isVideoUrl s then ⟨some s, vis, [url]⟩
        else if needsFollow s then
          if depth < maxDepth then withFetched url (recur s vis) else fallbackRes
        else fallbackRes
      | none => fallbackRes
    let iframeRes : ResolveResult :=
      if depth < maxDepth then
        match ifr? with
        | some ifr =>
          if iframeNotToonstream ifr && (isVideoPlayer ifr || isVideoUrl ifr) then
            ⟨some ifr, vis, [url]⟩
          else if iframeNotToonstream ifr && strStartsWith ifr "http" then
            ⟨some ifr, vis, [url]⟩
          else if needsFollow ifr then withFetched url (recur ifr vis)
          else scriptRes
        | none => scriptRes
      else scriptRes
    match direct with
    | some v => if isVideoUrl v then ⟨some v, vis, [url]⟩ else iframeRes
    | none => iframeRes

/-- Fuelled form of resolve.  The fuel-zero base case is unreachable from
resolveCall (see resolveCall_step); at fuel + 1 the terminal checks of lines
774-776 run in source order, then resolveBody. -/
def resolveFuel (f : String → Option Page) (maxDepth : Nat) :
    Nat → Nat → Option String → List String → ResolveResult
  | 0, _, _, visited => ⟨none, visited, []⟩
  | fuel+1, depth, url?, visited =>
    match url? with
    | none => ⟨none, visited, []⟩
    | some url =>
      if url == "" then ⟨none, visited, []⟩
      else if visited.contains url then ⟨some url, visited, []⟩
      else if maxDepth < depth then ⟨some url, visited, []⟩
      else
        resolveBody f maxDepth
          (fun u2 vis2 => resolveFuel f maxDepth fuel (depth+1) (some u2) vis2)
          depth url visited

/-- The resolve call at a given depth: fuel maxDepth + 2 - depth always
suffices because every recursive call increases depth under the guard
depth < maxDepth. -/
def resolveCall (f : String → Option Page) (maxDepth : Nat) (depth : Nat)
    (url? : Option String) (visited : List String) : ResolveResult :=
  resolveFuel f maxDepth (max (maxDepth + 2 - depth) 1) depth url? visited

/-- extractRealVideoUrl (lines 742-973) including its fetch and visited
traces: resolve(intermediateUrl, 0) with a fresh visited set and
MAX_DEPTH = embedMaxDepth + 2. -/
def extractRealVideoUrlRun (f : String → Option Page) (embedMaxDepth : Nat)
    (intermediateUrl : Option String) : ResolveResult :=
  resolveCall f (MAX_DEPTH embedMaxDepth) 0 intermediateUrl []

/-- extractRealVideoUrl restricted to its return value. -/
def extractRealVideoUrl (f : String → Option Page) (embedMaxDepth : Nat)
    (intermediateUrl : Option String) : Option String :=
  (extractRealVideoUrlRun f embedMaxDepth intermediateUrl).result

/-! ## HTTP fetch layer (fetchHtmlWithRetry, lines 353-408)

One attempt is abstracted to its observable outcome: either no HTTP response
arrived (a network-level error with the given message) or a response with a
status and body arrived.  axios resolves the request exactly when
validateStatus accepts the status and otherwise raises an error whose message
names the status code; the proxy bookkeeping and backoff delays of the loop
have no bearing on the returned value and are not modelled. -/

/-- Observable outcome of one HTTP attempt. -/
inductive AttemptOutcome where
  | noResponse (msg : String)
  | httpResponse (status : Nat) (body : String)
deriving DecidableEq

/-- validateStatus (line 373): status in the half-open interval from 200 to
400 counts as success. -/
def validateStatus (status : Nat) : Bool := 200 ≤ status && status < 400

/-- The axios error message for a response rejected by validateStatus. -/
def statusErrMsg (status : Nat) : String :=
  "Request failed with status code " ++ toString status

/-- What one attempt of the loop body (lines 362-383) produces: the body on an
accepted response, otherwise the error captured as lastErr. -/
def attemptResult : AttemptOutcome → Except String String
  | .noResponse msg => .error msg
  | .httpResponse status body =>
    if validateStatus status then .ok body else .error (statusErrMsg status)

/-- The message of the failure thrown after the loop (lines 405-407):
lastErr message when truthy, otherwise the literal unknown error. -/
def fetchFailMsg (url : String) (lastErr : Option String) : String :=
  "Failed to fetch " ++ url ++ ": " ++
    (match lastErr with
     | some m => if m == "" then "unknown error" else m
     | none => "unknown error")

/-- The attempt loop of fetchHtmlWithRetry: remaining counts the attempts still
allowed, attempt is the current 1-based attempt number, att gives the outcome
of each attempt. -/
def fetchLoop (att : Nat → AttemptOutcome) (url : String) :
    Nat → Nat → Option String → Except String String
  | 0, _, lastErr => .error (fetchFailMsg url lastErr)
  | remaining+1, attempt, lastErr =>
    match attemptResult (att attempt) with
    | .ok body => .ok body
    | .error msg =>
      let _ := lastErr
      fetchLoop att url remaining (attempt+1) (some msg)

/-- fetchHtmlWithRetry (lines 353-408): run attempts 1 to retries, return the
first accepted body, otherwise raise the composed failure. -/
def fetchHtmlWithRetry (att : Nat → AttemptOutcome) (url : String) (retries : Nat) :
    Except String String :=
  fetchLoop att url retries 1 none

/-! ## Proxy rotation manager (src/unnamed/part_000, class ProxyManager) -/

/-- The mutable state of a ProxyManager instance: the pool, the round-robin
cursor, the failure tombstone set (insertion ordered) and the enabled flag. -/
structure ProxyManager where
  proxies : List String
  currentIndex : Nat
  failedProxies : List String
  useProxy : Bool
deriving DecidableEq

/-- How the round-robin scan of getNextProxy ends: an entry (or the undefined
value when the cursor was out of range) returned from inside the loop together
with the updated cursor, or exhaustion of all attempts. -/
inductive ProxyScanOut where
  | picked (proxy : Option String) (idx : Nat)
  | exhausted (idx : Nat)
deriving DecidableEq

/-- The while loop of getNextProxy (lines 143-152): up to one probe per pool
entry; a probe advances the cursor modulo the pool size and returns the probed
entry unless it is tombstoned. -/
def getNextProxyScan (proxies failed : List String) : Nat → Nat → ProxyScanOut
  | 0, idx => .exhausted idx
  | steps+1, idx =>
    match proxies.get? idx with
    | some proxy =>
      let idx2 := (idx + 1) % proxies.length
      if failed.contains proxy then getNextProxyScan proxies failed steps idx2
      else .picked (some proxy) idx2
    | none => .picked none ((idx + 1) % proxies.length)

/-- getNextProxy (lines 138-157): null when disabled or the pool is empty;
otherwise scan; on exhaustion clear every tombstone and return the first pool
entry. -/
def getNextProxy (pm : ProxyManager) : Option String × ProxyManager :=
  if !pm.useProxy || pm.proxies.length == 0 then (none, pm)
  else
    match getNextProxyScan pm.proxies pm.failedProxies pm.proxies.length pm.currentIndex with
    | .picked p idx2 => (p, { pm with currentIndex := idx2 })
    | .exhausted idx2 =>
      (pm.proxies.head?, { pm with failedProxies := [], currentIndex := idx2 })

/-- markProxyAsFailed (lines 159-164): tombstone a truthy entry; Set.add is
modelled by an append that keeps the list duplicate free. -/
def markProxyAsFailed (pm : ProxyManager) (proxy : Option String) : ProxyManager :=
  match proxy with
  | some p =>
    if p == "" then pm
    else if pm.failedProxies.contains p then pm
    else { pm with failedProxies := pm.failedProxies ++ [p] }
  | none => pm

/-! ## Embed extraction filter (extractEmbeds, lines 1153-1266)

The candidate-building stages over the episode document (player options,
trembed links, raw iframes) produce a list of server options; the loop of
lines 1216-1263 turns them into the persisted servers list.  The model takes
the candidate list and the resolver as inputs. -/

/-- One candidate produced by the candidate-building stages of extractEmbeds:
either an intermediate trembed URL to resolve or an already external direct
URL (exactly one of the two is set by the source). -/
structure ServerOption where
  name : String
  trembedUrl : Option String
  directUrl : Option String
  option : Nat
deriving DecidableEq

/-- One element of the persisted servers list (the embeds array pushed on
lines 1224-1230 and 1248-1255). -/
structure Embed where
  name : String
  url : String
  realVideo : String
  intermediateUrl : Option String
  option : Nat
deriving DecidableEq

/-- The resolution step for one candidate that still carries a trembed URL
(lines 1235-1258): resolve it and keep the result only when it is truthy,
differs from the intermediate URL, and contains neither the source-site
substring nor the trembed marker. -/
def trembedStep (resolveFn : String → Option String) (server : ServerOption)
    (tail : List Embed) : List Embed :=
  match server.trembedUrl with
  | some t =>
    if t == "" then tail
    else
      match resolveFn t with
      | some r =>
        if !(r == "") && !(r == t) && !(strContains r "toonstream.one")
            && !(strContains r "trembed") then
          { name := server.name, url := r, realVideo := r,
            intermediateUrl := some t, option := server.option } :: tail
        else tail
      | none => tail
  | none => tail

/-- The per-candidate loop of extractEmbeds (lines 1216-1263): a truthy direct
external URL is kept as is; otherwise the trembed URL is resolved and
filtered. -/
def extractEmbedsLoop (resolveFn : String → Option String) : List ServerOption → List Embed
  | [] => []
  | server :: rest =>
    let tail := extractEmbedsLoop resolveFn rest
    match server.directUrl with
    | some d =>
      if d == "" then trembedStep resolveFn server tail
      else { name := server.name, url := d, realVideo := d,
             intermediateUrl := none, option := server.option } :: tail
    | none => trembedStep resolveFn server tail

/-- extractEmbeds with the resolver instantiated to the real resolution engine
over a document graph. -/
def extractEmbedsResolved (f : String → Option Page) (embedMaxDepth : Nat)
    (serverOptions : List ServerOption) : List Embed :=
  extractEmbedsLoop (fun t => extractRealVideoUrl f embedMaxDepth (some t)) serverOptions

/-! ## Retry scheduling (episode_retries table)

The table keyed by (series_slug, season, episode); upsert with onConflict on
that key replaces the conflicting row, delete removes it.  Two code sites
write it during one sync of an episode: the block inside syncEpisodeByUrl
(lines 1376-1396) runs first, then the block inside upsertEpisode (lines
1721-1754); both use the same wall-clock reading in the model. -/

/-- One hour in milliseconds. -/
def HOUR_MS : Nat := 60 * 60 * 1000

/-- Identity of a retry-schedule entry. -/
structure RetryKey where
  seriesSlug : String
  season : Nat
  episode : Nat
deriving DecidableEq

/-- One row of the episode_retries table (the columns the source writes). -/
structure RetryRow where
  key : RetryKey
  episodeUrl : Option String
  retryAt : Nat
  retryCount : Nat
  status : String
deriving DecidableEq

/-- Row lookup by key. -/
def lookupRetry (t : List RetryRow) (k : RetryKey) : Option RetryRow :=
  t.find? (fun r => r.key == k)

/-- Delete by key. -/
def deleteRetry (t : List RetryRow) (k : RetryKey) : List RetryRow :=
  t.filter (fun r => !(r.key == k))

/-- Upsert with on-conflict replacement on the key (the table is uniquely
keyed, so replacing the conflicting row and appending are equivalent). -/
def upsertRetry (t : List RetryRow) (row : RetryRow) : List RetryRow :=
  deleteRetry t row.key ++ [row]

/-- The retry block of syncEpisodeByUrl (lines 1376-1396): with exactly one
server, upsert an entry due five hours from now whose retry_count is
(updateCheck.retry_count || 0) + 1; updateCheck (built by
checkEpisodeNeedsUpdate, lines 1644-1673) never carries a retry_count field,
so the written count is always 1.  With two or more servers, delete the
entry. -/
def scheduleRetryPreUpsert (now : Nat) (t : List RetryRow) (k : RetryKey)
    (episodeUrl : Option String) (serverCount : Nat) : List RetryRow :=
  if serverCount == 1 then
    upsertRetry t { key := k, episodeUrl := episodeUrl,
                    retryAt := now + 5 * HOUR_MS, retryCount := 0 + 1, status := "pending" }
  else if serverCount > 1 then deleteRetry t k
  else t

/-- The interval table of upsertEpisode (line 1726): 3h, 5h, 10h. -/
def retryIntervals : List Nat := [3 * HOUR_MS, 5 * HOUR_MS, 10 * HOUR_MS]

/-- The retry block of upsertEpisode (lines 1721-1754): with exactly one
server, read the current retry_count (0 when absent); when below 3, upsert an
entry due intervals[retry_count] from now carrying that same retry_count.
With two or more servers, delete the entry. -/
def scheduleRetryInUpsertEpisode (now : Nat) (t : List RetryRow) (k : RetryKey)
    (serverCount : Nat) : List RetryRow :=
  if serverCount == 1 then
    let currentRetryCount :=
      match lookupRetry t k with
      | some row => row.retryCount
      | none => 0
    if currentRetryCount < 3 then
      upsertRetry t { key := k,
                      episodeUrl := buildEpisodeUrl k.seriesSlug k.season k.episode,
                      retryAt := now + retryIntervals.getD currentRetryCount 0,
                      retryCount := currentRetryCount, status := "pending" }
    else t
  else if serverCount > 1 then deleteRetry t k
  else t

/-- The composite effect on the retry table of one build-and-upsert iteration
of syncEpisodeByUrl for an episode resolving to serverCount servers: the
pre-upsert block (lines 1376-1396) followed by the block inside upsertEpisode
(lines 1721-1754). -/
def syncRetryUpdate (now : Nat) (t : List RetryRow) (k : RetryKey)
    (episodeUrl : Option String) (serverCount : Nat) : List RetryRow :=
  scheduleRetryInUpsertEpisode now
    (scheduleRetryPreUpsert now t k episodeUrl serverCount) k serverCount

/-! ## Series completeness pass (ensureSeriesComplete, lines 2018-2259)

The pass lists the episodes the source site reports, reads the episodes the
store holds for the series (lines 2134-2144), and syncs, with force = true,
exactly those source episodes whose (season, episode) key is absent from the
store (lines 2166-2250); episodes present in the store are never passed to
syncEpisodeByUrl by this pass, whatever their server count.  For a missing
episode synced with force = true, syncEpisodeByUrl skips no tier (the force
flag bypasses the processed set, the local cache and the store check), finds
updateCheck.exists = false, and on successful persistence increments
stats.newEpisodes (isUpdate = updateCheck.exists = false on line 1399).  The
counter model below assumes every fetch and upsert succeeds, which is the
assumption of the scenario in the specification. -/

/-- A (season, episode) pair reported by the source site. -/
structure EpisodeRef where
  season : Nat
  episode : Nat
deriving DecidableEq

/-- What the store holds for one episode of the series: key fields plus the
resolved server count and thumbnail presence read on line 2137. -/
structure StoredEpisode where
  season : Nat
  episode : Nat
  serverCount : Nat
  hasThumbnail : Bool
deriving DecidableEq

/-- Membership of a source episode key in the store (the existingEpisodes set
of lines 2140-2144). -/
def episodeInStore (store : List StoredEpisode) (r : EpisodeRef) : Bool :=
  store.any (fun ep => ep.season == r.season && ep.episode == r.episode)

/-- The missing filter of lines 2166-2169: source episodes absent from the
store. -/
def missingEpisodes (source : List EpisodeRef) (store : List StoredEpisode) :
    List EpisodeRef :=
  source.filter (fun l => !(episodeInStore store l))

/-- checkEpisodeNeedsUpdate (lines 1644-1673) restricted to its decision
fields: (exists, needsUpdate) where needsUpdate holds when the stored episode
has no servers or no thumbnail. -/
def checkEpisodeNeedsUpdate (store : List StoredEpisode) (season episode : Nat) :
    Bool × Bool :=
  match store.find? (fun ep => ep.season == season && ep.episode == episode) with
  | none => (false, true)
  | some ep => (true, ep.serverCount == 0 || !ep.hasThumbnail)

/-- The run counters touched by the pass. -/
structure SyncCounters where
  newEpisodes : Nat
  updatedEpisodes : Nat
  skippedEpisodes : Nat
deriving DecidableEq

/-- The observable effect of one ensureSeriesComplete pass: the episodes it
hands to syncEpisodeByUrl (exactly the missing ones, lines 2166-2250) and the
counter deltas under the success assumption described above (every missing
episode is counted as new; nothing is counted as updated or skipped because
stored episodes are never processed). -/
def ensureSeriesCompletePass (source : List EpisodeRef) (store : List StoredEpisode) :
    List EpisodeRef × SyncCounters :=
  let missing := missingEpisodes source store
  (missing, { newEpisodes := missing.length, updatedEpisodes := 0, skippedEpisodes := 0 })

/-! ## Concrete document graphs and states used by witnesses and
counterexamples -/

/-- Two mutually redirecting trembed endpoints (a resolution cycle). -/
def c1Fetch : String → Option Page := fun u =>
  if u == "https://toonstream.one/?trembed=0&trid=1&trtype=2" then
    some ⟨[], [some "https://toonstream.one/?trembed=1&trid=1&trtype=2"], []⟩
  else if u == "https://toonstream.one/?trembed=1&trid=1&trtype=2" then
    some ⟨[], [some "https://toonstream.one/?trembed=0&trid=1&trtype=2"], []⟩
  else none

/-- A document whose first media element carries a non-blob absolute URL that
the is-video classifier rejects, next to a same-site redirection iframe whose
own document is empty. -/
def c2Fetch : String → Option Page := fun u =>
  if u == "https://toonstream.one/?trembed=1&trid=22&trtype=2" then
    some ⟨[some "https://cdn.example.com/preview"],
          [some "https://toonstream.one/?trembed=2&trid=22&trtype=2"], []⟩
  else if u == "https://toonstream.one/?trembed=2&trid=22&trtype=2" then
    some ⟨[], [], []⟩
  else none

/-- A document whose first media element is a direct mp4 link, next to an
iframe. -/
def c2wFetch : String → Option Page := fun u =>
  if u == "https://toonstream.one/?trembed=0&trid=23&trtype=2" then
    some ⟨[some "https://cdn.example.com/ep1.mp4"],
          [some "https://toonstream.one/?trembed=1&trid=23&trtype=2"], []⟩
  else none

/-- A trembed endpoint whose only iframe is about:blank (an external,
non-http frame target), with no scripts and no media elements. -/
def c3Fetch : String → Option Page := fun u =>
  if u == "https://toonstream.one/?trembed=0&trid=11&trtype=2" then
    some ⟨[], [some "about:blank"], []⟩
  else none

/-- One page with an unrecognized external http iframe and one page with a
same-site redirection-marker iframe. -/
def c3wFetch : String → Option Page := fun u =>
  if u == "https://toonstream.one/?trembed=0&trid=31&trtype=2" then
    some ⟨[], [some "https://unknownhost.example/watch?id=5"], []⟩
  else if u == "https://toonstream.one/?trembed=1&trid=31&trtype=2" then
    some ⟨[], [some "https://toonstream.one/?trembed=2&trid=31&trtype=2"], []⟩
  else if u == "https://toonstream.one/?trembed=2&trid=31&trtype=2" then
    some ⟨[], [], []⟩
  else none

/-- A graph in which no document can be fetched. -/
def c4Fetch : String → Option Page := fun _ => none

/-- The retry-schedule identity used by the C5 instances. -/
def c5Key : RetryKey := ⟨"demon-slayer", 1, 4⟩

/-- Source listing 1x1 through 1x5. -/
def c6Source : List EpisodeRef := [⟨1, 1⟩, ⟨1, 2⟩, ⟨1, 3⟩, ⟨1, 4⟩, ⟨1, 5⟩]

/-- Store holding 1x1 through 1x3 complete and 1x4 with zero servers. -/
def c6Store : List StoredEpisode :=
  [⟨1, 1, 2, true⟩, ⟨1, 2, 2, true⟩, ⟨1, 3, 2, true⟩, ⟨1, 4, 0, true⟩]

/-- Store holding all five episodes. -/
def c6StoreFull : List StoredEpisode :=
  [⟨1, 1, 2, true⟩, ⟨1, 2, 2, true⟩, ⟨1, 3, 2, true⟩, ⟨1, 4, 0, true⟩, ⟨1, 5, 1, true⟩]

/-- A two-entry proxy pool in which both entries are tombstoned. -/
def c7pm : ProxyManager :=
  { proxies := ["http://10.0.0.1:8080", "http://10.0.0.2:8080"],
    currentIndex := 1,
    failedProxies := ["http://10.0.0.1:8080", "http://10.0.0.2:8080"],
    useProxy := true }

/-- Three attempts that all fail: a network error, then a 404, then a 503. -/
def c8att : Nat → AttemptOutcome := fun k =>
  if k == 1 then .noResponse "socket hang up"
  else if k == 2 then .httpResponse 404 "not found"
  else .httpResponse 503 "busy"

/-- The error message of each failing attempt of c8att. -/
def c8msgs : Nat → String := fun k =>
  if k == 1 then "socket hang up"
  else if k == 2 then statusErrMsg 404
  else statusErrMsg 503

/-- A 500 on the first attempt, then a 200 with a body. -/
def c8attOk : Nat → AttemptOutcome := fun k =>
  if k == 1 then .httpResponse 500 "boom"
  else .httpResponse 200 "<html>ok</html>"

/-- A trembed endpoint whose iframe carries the trid= redirection marker on a
foreign host; the frame document itself is empty, so resolution returns the
frame URL unchanged. -/
def c9Fetch : String → Option Page := fun u =>
  if u == "https://toonstream.one/?trembed=0&trid=7&trtype=2" then
    some ⟨[], [some "https://evil.example/?trid=9"], []⟩
  else if u == "https://evil.example/?trid=9" then
    some ⟨[], [], []⟩
  else none

/-- One intermediate server candidate for the C9 instances. -/
def c9Opts : List ServerOption :=
  [⟨"Server 1", some "https://toonstream.one/?trembed=0&trid=7&trtype=2", none, 1⟩]

/-- A resolver that maps every intermediate URL to a fixed external player
URL. -/
def c9wResolve : String → Option String := fun _ => some "https://filemoon.example/e/abc"

/-- The servers-list element that c9wResolve yields for c9Opts. -/
def c9wEmbed : Embed :=
  ⟨"Server 1", "https://filemoon.example/e/abc", "https://filemoon.example/e/abc",
   some "https://toonstream.one/?trembed=0&trid=7&trtype=2", 1⟩

/-! ## Theorems

Helper lemmas about the resolver, then one theorem per claim (with its
witness and, for corrected claims, its counterexample). -/

theorem resolveFuel_succ (f : String → Option Page) (m fuel depth : Nat)
    (url? : Option String) (visited : List String) :
    resolveFuel f m (fuel+1) depth url? visited =
      match url? with
      | none => ⟨none, visited, []⟩
      | some url =>
        if url == "" then ⟨none, visited, []⟩
        else if visited.contains url then ⟨some url, visited, []⟩
        else if m < depth then ⟨some url, visited, []⟩
        else
          resolveBody f m
            (fun u2 vis2 => resolveFuel f m fuel (depth+1) (some u2) vis2)
            depth url visited := rfl

theorem resolveCall_none (f : String → Option Page) (m depth : Nat) (visited : List String) :
    resolveCall f m depth none visited = ⟨none, visited, []⟩ := by
  unfold resolveCall
  have h1 : max (m + 2 - depth) 1 = (max (m + 2 - depth) 1 - 1) + 1 := by omega
  rw [h1, resolveFuel_succ]

theorem resolveCall_visited (f : String → Option Page) (m depth : Nat) (url : String)
    (visited : List String) (hu : (url == "") = false) (hv : visited.contains url = true) :
    resolveCall f m depth (some url) visited = ⟨some url, visited, []⟩ := by
  have hmem : url ∈ visited := by simpa using hv
  unfold resolveCall
  have h1 : max (m + 2 - depth) 1 = (max (m + 2 - depth) 1 - 1) + 1 := by omega
  rw [h1, resolveFuel_succ]
  simp [hu, hmem]

theorem resolveCall_cutoff (f : String → Option Page) (m depth : Nat) (url : String)
    (visited : List String) (hu : (url == "") = false) (hd : m < depth) :
    resolveCall f m depth (some url) visited = ⟨some url, visited, []⟩ := by
  unfold resolveCall
  have h1 : max (m + 2 - depth) 1 = (max (m + 2 - depth) 1 - 1) + 1 := by omega
  rw [h1, resolveFuel_succ]
  by_cases hmem : url ∈ visited <;> simp [hu, hmem, hd]

theorem resolveCall_step (f : String → Option Page) (m depth : Nat) (url : String)
    (visited : List String) (hu : (url == "") = false) (hv : visited.contains url = false)
    (hd : depth ≤ m) :
    resolveCall f m depth (some url) visited =
      resolveBody f m (fun u2 vis2 => resolveCall f m (depth+1) (some u2) vis2)
        depth url visited := by
  have hmem : url ∉ visited := by simpa using hv
  unfold resolveCall
  have h1 : max (m + 2 - depth) 1 = (m + 1 - depth) + 1 := by omega
  rw [h1, resolveFuel_succ]
  have h2 : max (m + 1 - depth) 1 = m + 1 - depth := by omega
  simp [hu, hmem, Nat.not_lt.mpr hd, h2]

theorem resolveBody_fetchFail (f : String → Option Page) (m : Nat)
    (recur : String → List String → ResolveResult) (depth : Nat) (url : String)
    (visited : List String) (hf : f url = none) :
    resolveBody f m recur depth url visited = ⟨none, url :: visited, [url]⟩ := by
  simp [resolveBody, hf]

theorem resolveBody_directHit (f : String → Option Page) (m : Nat)
    (recur : String → List String → ResolveResult) (depth : Nat) (url : String)
    (visited : List String) (page : Page) (v : String) (hf : f url = some page)
    (hdv : pickDirectVideo page = some v) (hvid : isVideoUrl v = true) :
    resolveBody f m recur depth url visited = ⟨some v, url :: visited, [url]⟩ := by
  simp [resolveBody, hf, hdv, hvid]

theorem resolveBody_extIframe (f : String → Option Page) (m : Nat)
    (recur : String → List String → ResolveResult) (depth : Nat) (url : String)
    (visited : List String) (page : Page) (i : String) (hf : f url = some page)
    (hmiss : ∀ w, pickDirectVideo page = some w → isVideoUrl w = false)
    (hifr : pickIframe page url (url :: visited) = some i)
    (hdep : depth < m) (hext : iframeNotToonstream i = true)
    (hhttp : strStartsWith i "http" = true) :
    resolveBody f m recur depth url visited = ⟨some i, url :: visited, [url]⟩ := by
  cases hdv : pickDirectVideo page with
  | none =>
    cases hvp : (isVideoPlayer i || isVideoUrl i) <;>
      simp [resolveBody, hf, hifr, hdep, hext, hhttp, hdv, hvp]
  | some w =>
    have hw := hmiss w hdv
    cases hvp : (isVideoPlayer i || isVideoUrl i) <;>
      simp [resolveBody, hf, hifr, hdep, hext, hhttp, hdv, hw, hvp]

theorem resolveBody_followIframe (f : String → Option Page) (m : Nat)
    (recur : String → List String → ResolveResult) (depth : Nat) (url : String)
    (visited : List String) (page : Page) (i : String) (hf : f url = some page)
    (hmiss : ∀ w, pickDirectVideo page = some w → isVideoUrl w = false)
    (hifr : pickIframe page url (url :: visited) = some i)
    (hdep : depth < m) (hext : iframeNotToonstream i = false)
    (hnf : needsFollow i = true) :
    resolveBody f m recur depth url visited = withFetched url (recur i (url :: visited)) := by
  cases hdv : pickDirectVideo page with
  | none => simp [resolveBody, hf, hifr, hdep, hext, hnf, hdv]
  | some w =>
    have hw := hmiss w hdv
    simp [resolveBody, hf, hifr, hdep, hext, hnf, hdv, hw]

theorem resolveBody_fetched_le (f : String → Option Page) (m : Nat)
    (recur : String → List String → ResolveResult) (depth : Nat) (url : String)
    (visited : List String) (B : Nat)
    (hrec : ∀ u2 vis2, (recur u2 vis2).fetched.length ≤ B) :
    (resolveBody f m recur depth url visited).fetched.length ≤ B + 1 := by
  unfold resolveBody
  cases hf : f url with
  | none => simp
  | some page =>
    simp only [withFetched]
    repeat' split
    all_goals simp only [List.length_cons, List.length_nil]
    all_goals try omega
    all_goals exact Nat.add_le_add_right (hrec _ _) 1

theorem resolveFuel_fetched_le (f : String → Option Page) (m : Nat) :
    ∀ fuel depth (url? : Option String) (visited : List String),
      (resolveFuel f m fuel depth url? visited).fetched.length ≤ m + 1 - depth := by
  intro fuel
  induction fuel with
  | zero => intro depth url? visited; simp [resolveFuel]
  | succ n ih =>
    intro depth url? visited
    rw [resolveFuel_succ]
    cases url? with
    | none => simp
    | some url =>
      by_cases hu : (url == "") = true
      · simp [hu]
      · simp only [hu, Bool.false_eq_true, if_false]
        by_cases hmem : url ∈ visited
        · simp [hmem]
        · have hc : visited.contains url = false := by simpa using hmem
          simp only [hc, Bool.false_eq_true, if_false]
          by_cases hd : m < depth
          · simp [hd]
          · simp only [hd, if_false]
            have hstep := resolveBody_fetched_le f m
              (fun u2 vis2 => resolveFuel f m n (depth+1) (some u2) vis2) depth url visited
              (m + 1 - (depth + 1)) (fun u2 vis2 => ih (depth+1) (some u2) vis2)
            have harith : m + 1 - (depth + 1) + 1 = m + 1 - depth := by omega
            omega

theorem pickDirectVideo_nil (ifrs scr : List (Option String)) :
    ∀ w, pickDirectVideo ⟨[], ifrs, scr⟩ = some w → isVideoUrl w = false := by
  intro w hw
  simp [pickDirectVideo] at hw

theorem needsFollow_of_marker (u : String)
    (h : strContains u "trembed" = true ∨ strContains u "trid=" = true
       ∨ strContains u "trtype=" = true ∨ isToonstreamUrl u = true) :
    needsFollow u = true := by
  have hu : (u == "") = false := by
    cases hx : (u == "") with
    | false => rfl
    | true =>
      have hempty : u = "" := by simpa using hx
      subst hempty
      rcases h with h|h|h|h <;> exact absurd h (by decide)
  rcases h with h|h|h|h <;> simp [needsFollow, hu, h]

theorem iframeNotToonstream_of_marker (u : String)
    (h : strContains u "trembed" = true ∨ strContains u "trid=" = true
       ∨ strContains u "trtype=" = true ∨ strContains u "toonstream.one" = true) :
    iframeNotToonstream u = false := by
  rcases h with h|h|h|h <;> simp [iframeNotToonstream, h]

/-- C1: for every document graph and starting URL the resolver is a total
function whose behavior is bounded: a URL already in the visited set is
returned unchanged, a call whose depth exceeds MAX_DEPTH returns its URL
unchanged rather than failing, a full resolution chain performs at most
MAX_DEPTH + 1 fetches, and MAX_DEPTH is the configured embed depth plus 2. -/
theorem resolve_termination_bounds (f : String → Option Page) (e depth : Nat)
    (url : String) (url? : Option String) (visited : List String) :
    ((url == "") = false → visited.contains url = true →
      resolveCall f (MAX_DEPTH e) depth (some url) visited = ⟨some url, visited, []⟩)
    ∧ ((url == "") = false → MAX_DEPTH e < depth →
      resolveCall f (MAX_DEPTH e) depth (some url) visited = ⟨some url, visited, []⟩)
    ∧ (extractRealVideoUrlRun f e url?).fetched.length ≤ MAX_DEPTH e + 1
    ∧ MAX_DEPTH e = e + 2 := by
  refine ⟨fun hu hv => resolveCall_visited f (MAX_DEPTH e) depth url visited hu hv,
          fun hu hd => resolveCall_cutoff f (MAX_DEPTH e) depth url visited hu hd,
          ?_, rfl⟩
  have h := resolveFuel_fetched_le f (MAX_DEPTH e) (max (MAX_DEPTH e + 2 - 0) 1) 0 url? []
  simpa [extractRealVideoUrlRun, resolveCall] using h

theorem resolve_termination_bounds_witness :
    resolveCall c1Fetch (MAX_DEPTH 3) 2 (some "https://a.example/x") ["https://a.example/x"]
        = ⟨some "https://a.example/x", ["https://a.example/x"], []⟩
    ∧ resolveCall c1Fetch (MAX_DEPTH 3) 9 (some "https://b.example/y") []
        = ⟨some "https://b.example/y", [], []⟩
    ∧ (extractRealVideoUrlRun c1Fetch 3
        (some "https://toonstream.one/?trembed=0&trid=1&trtype=2")).fetched.length
        ≤ MAX_DEPTH 3 + 1 :=
  ⟨(resolve_termination_bounds c1Fetch 3 2 "https://a.example/x" none
      ["https://a.example/x"]).1 (by decide) (by decide),
   (resolve_termination_bounds c1Fetch 3 9 "https://b.example/y" none []).2.1
      (by decide) (by decide),
   (resolve_termination_bounds c1Fetch 3 0 "x"
      (some "https://toonstream.one/?trembed=0&trid=1&trtype=2") []).2.2.1⟩

/-- C2 counterexample: a document holding both a media element whose source is
a non-blob absolute URL (which the is-video classifier rejects) and an iframe;
resolve does not return the media URL and does fetch the iframe target, so the
claim fails as stated. -/
theorem direct_media_short_circuit_cex :
    pickDirectVideo ⟨[some "https://cdn.example.com/preview"],
        [some "https://toonstream.one/?trembed=2&trid=22&trtype=2"], []⟩
      = some "https://cdn.example.com/preview"
    ∧ strStartsWith "https://cdn.example.com/preview" "blob:" = false
    ∧ c2Fetch "https://toonstream.one/?trembed=1&trid=22&trtype=2"
        = some ⟨[some "https://cdn.example.com/preview"],
            [some "https://toonstream.one/?trembed=2&trid=22&trtype=2"], []⟩
    ∧ extractRealVideoUrlRun c2Fetch 3
        (some "https://toonstream.one/?trembed=1&trid=22&trtype=2")
      = ⟨some "https://toonstream.one/?trembed=2&trid=22&trtype=2",
         ["https://toonstream.one/?trembed=2&trid=22&trtype=2",
          "https://toonstream.one/?trembed=1&trid=22&trtype=2"],
         ["https://toonstream.one/?trembed=1&trid=22&trtype=2",
          "https://toonstream.one/?trembed=2&trid=22&trtype=2"]⟩
    ∧ ¬ (some "https://toonstream.one/?trembed=2&trid=22&trtype=2"
          = some "https://cdn.example.com/preview") := by decide

/-- C2 (amended): for every document whose first usable direct media source (a
truthy, non-blob normalized URL of a video or source element) also satisfies
the is-video classifier, resolve returns that URL immediately and fetches only
the current document, so an iframe target is never fetched. -/
theorem direct_media_short_circuit (f : String → Option Page) (m depth : Nat)
    (url : String) (visited : List String) (page : Page) (v : String)
    (hu : (url == "") = false) (hv : visited.contains url = false) (hdep : depth ≤ m)
    (hf : f url = some page) (hdv : pickDirectVideo page = some v)
    (hvid : isVideoUrl v = true) :
    resolveCall f m depth (some url) visited = ⟨some v, url :: visited, [url]⟩ := by
  rw [resolveCall_step f m depth url visited hu hv hdep]
  exact resolveBody_directHit f m _ depth url visited page v hf hdv hvid

theorem direct_media_short_circuit_witness :
    resolveCall c2wFetch (MAX_DEPTH 3) 0
        (some "https://toonstream.one/?trembed=0&trid=23&trtype=2") []
      = ⟨some "https://cdn.example.com/ep1.mp4",
         ["https://toonstream.one/?trembed=0&trid=23&trtype=2"],
         ["https://toonstream.one/?trembed=0&trid=23&trtype=2"]⟩ :=
  direct_media_short_circuit c2wFetch (MAX_DEPTH 3) 0
    "https://toonstream.one/?trembed=0&trid=23&trtype=2" []
    ⟨[some "https://cdn.example.com/ep1.mp4"],
     [some "https://toonstream.one/?trembed=1&trid=23&trtype=2"], []⟩
    "https://cdn.example.com/ep1.mp4"
    (by decide) (by decide) (by decide) (by decide) (by decide) (by decide)

/-- C3 counterexample: a first not-yet-visited iframe whose URL (about:blank)
is not on the source site and matches neither the player signature nor the
media classifier is nevertheless recursed into (it is fetched) instead of
being returned, because the direct-return branch additionally requires an
http prefix; the claim fails as stated. -/
theorem external_iframe_policy_cex :
    pickIframe ⟨[], [some "about:blank"], []⟩
        "https://toonstream.one/?trembed=0&trid=11&trtype=2"
        ["https://toonstream.one/?trembed=0&trid=11&trtype=2"] = some "about:blank"
    ∧ iframeNotToonstream "about:blank" = true
    ∧ isVideoPlayer "about:blank" = false
    ∧ isVideoUrl "about:blank" = false
    ∧ extractRealVideoUrlRun c3Fetch 3
        (some "https://toonstream.one/?trembed=0&trid=11&trtype=2")
      = ⟨none, ["about:blank", "https://toonstream.one/?trembed=0&trid=11&trtype=2"],
         ["https://toonstream.one/?trembed=0&trid=11&trtype=2", "about:blank"]⟩
    ∧ "about:blank" ∈ (extractRealVideoUrlRun c3Fetch 3
        (some "https://toonstream.one/?trembed=0&trid=11&trtype=2")).fetched
    ∧ (extractRealVideoUrlRun c3Fetch 3
        (some "https://toonstream.one/?trembed=0&trid=11&trtype=2")).result
        ≠ some "about:blank" := by decide

/-- C3 (amended): when resolve, below the depth bound and with no direct-video
short circuit, finds a first not-yet-visited iframe, then an iframe whose URL
passes the not-on-source-site substring test and starts with http is returned
directly without being fetched, even when it matches no player signature and
no media classifier; an iframe that carries a redirection marker or is
genuinely same-site is instead resolved recursively at depth + 1. -/
theorem external_iframe_policy (f : String → Option Page) (m depth : Nat) (url : String)
    (visited : List String) (page : Page) (i : String)
    (hu : (url == "") = false) (hv : visited.contains url = false) (hdep : depth < m)
    (hf : f url = some page)
    (hmiss : ∀ w, pickDirectVideo page = some w → isVideoUrl w = false)
    (hifr : pickIframe page url (url :: visited) = some i) :
    (iframeNotToonstream i = true → strStartsWith i "http" = true →
      resolveCall f m depth (some url) visited = ⟨some i, url :: visited, [url]⟩)
    ∧ ((strContains i "trembed" = true ∨ strContains i "trid=" = true
        ∨ strContains i "trtype=" = true
        ∨ (isToonstreamUrl i = true ∧ strContains i "toonstream.one" = true)) →
      resolveCall f m depth (some url) visited =
        withFetched url (resolveCall f m (depth+1) (some i) (url :: visited))) := by
  constructor
  · intro hext hhttp
    rw [resolveCall_step f m depth url visited hu hv (Nat.le_of_lt hdep)]
    exact resolveBody_extIframe f m _ depth url visited page i hf hmiss hifr hdep hext hhttp
  · intro hmark
    have hnf : needsFollow i = true := needsFollow_of_marker i (by tauto)
    have hext : iframeNotToonstream i = false := iframeNotToonstream_of_marker i (by tauto)
    rw [resolveCall_step f m depth url visited hu hv (Nat.le_of_lt hdep)]
    exact resolveBody_followIframe f m _ depth url visited page i hf hmiss hifr hdep hext hnf

theorem external_iframe_policy_witness :
    resolveCall c3wFetch (MAX_DEPTH 3) 0
        (some "https://toonstream.one/?trembed=0&trid=31&trtype=2") []
      = ⟨some "https://unknownhost.example/watch?id=5",
         ["https://toonstream.one/?trembed=0&trid=31&trtype=2"],
         ["https://toonstream.one/?trembed=0&trid=31&trtype=2"]⟩
    ∧ resolveCall c3wFetch (MAX_DEPTH 3) 0
        (some "https://toonstream.one/?trembed=1&trid=31&trtype=2") []
      = withFetched "https://toonstream.one/?trembed=1&trid=31&trtype=2"
          (resolveCall c3wFetch (MAX_DEPTH 3) 1
            (some "https://toonstream.one/?trembed=2&trid=31&trtype=2")
            ["https://toonstream.one/?trembed=1&trid=31&trtype=2"]) :=
  ⟨(external_iframe_policy c3wFetch (MAX_DEPTH 3) 0
      "https://toonstream.one/?trembed=0&trid=31&trtype=2" []
      ⟨[], [some "https://unknownhost.example/watch?id=5"], []⟩
      "https://unknownhost.example/watch?id=5"
      (by decide) (by decide) (by decide) (by decide)
      (pickDirectVideo_nil _ _) (by decide)).1 (by decide) (by decide),
   (external_iframe_policy c3wFetch (MAX_DEPTH 3) 0
      "https://toonstream.one/?trembed=1&trid=31&trtype=2" []
      ⟨[], [some "https://toonstream.one/?trembed=2&trid=31&trtype=2"], []⟩
      "https://toonstream.one/?trembed=2&trid=31&trtype=2"
      (by decide) (by decide) (by decide) (by decide)
      (pickDirectVideo_nil _ _) (by decide)).2 (Or.inl (by decide))⟩

/-- C4: a node whose document cannot be fetched after all retry attempts makes
resolve return null from that node, while the depth cutoff returns the
frontier URL unchanged; the two outcomes are distinguishable. -/
theorem fetch_break_null (f : String → Option Page) (m depth : Nat) (url : String)
    (visited : List String) :
    ((url == "") = false → visited.contains url = false → depth ≤ m → f url = none →
      resolveCall f m depth (some url) visited = ⟨none, url :: visited, [url]⟩)
    ∧ ((url == "") = false → m < depth →
      resolveCall f m depth (some url) visited = ⟨some url, visited, []⟩)
    ∧ some url ≠ (none : Option String) := by
  refine ⟨fun hu hv hd hf => ?_,
          fun hu hd => resolveCall_cutoff f m depth url visited hu hd, by simp⟩
  rw [resolveCall_step f m depth url visited hu hv hd]
  exact resolveBody_fetchFail f m _ depth url visited hf

theorem fetch_break_null_witness :
    resolveCall c4Fetch 5 2 (some "https://toonstream.one/?trembed=0&trid=41&trtype=2") []
      = ⟨none, ["https://toonstream.one/?trembed=0&trid=41&trtype=2"],
         ["https://toonstream.one/?trembed=0&trid=41&trtype=2"]⟩
    ∧ resolveCall c4Fetch 5 6 (some "https://toonstream.one/?trembed=0&trid=41&trtype=2") []
      = ⟨some "https://toonstream.one/?trembed=0&trid=41&trtype=2", [], []⟩ :=
  ⟨(fetch_break_null c4Fetch 5 2 "https://toonstream.one/?trembed=0&trid=41&trtype=2" []).1
      (by decide) (by decide) (by decide) rfl,
   (fetch_break_null c4Fetch 5 6 "https://toonstream.one/?trembed=0&trid=41&trtype=2" []).2.1
      (by decide) (by decide)⟩

theorem lookupRetry_delete (t : List RetryRow) (k : RetryKey) :
    lookupRetry (deleteRetry t k) k = none := by
  unfold lookupRetry deleteRetry
  rw [List.find?_eq_none]
  intro x hx
  have h2 := (List.mem_filter.mp hx).2
  simp only [Bool.not_eq_true'] at h2
  simp [h2]

theorem lookupRetry_upsert (t : List RetryRow) (row : RetryRow) :
    lookupRetry (upsertRetry t row) row.key = some row := by
  have h1 : lookupRetry (deleteRetry t row.key) row.key = none := lookupRetry_delete t row.key
  unfold lookupRetry at h1 ⊢
  unfold upsertRetry
  rw [List.find?_append, h1]
  simp [List.find?]

theorem mem_deleteRetry (t : List RetryRow) (k : RetryKey) (r : RetryRow)
    (hr : r ∈ deleteRetry t k) : r ∈ t :=
  (List.mem_filter.mp hr).1

theorem mem_upsertRetry (t : List RetryRow) (row r : RetryRow)
    (hr : r ∈ upsertRetry t row) : r ∈ t ∨ r = row := by
  unfold upsertRetry at hr
  rcases List.mem_append.mp hr with h | h
  · exact Or.inl (mem_deleteRetry t row.key r h)
  · exact Or.inr (by simpa using h)

theorem syncRetryUpdate_one (now : Nat) (t : List RetryRow) (k : RetryKey)
    (episodeUrl : Option String) :
    syncRetryUpdate now t k episodeUrl 1 =
      upsertRetry (upsertRetry t ⟨k, episodeUrl, now + 5 * HOUR_MS, 1, "pending"⟩)
        ⟨k, buildEpisodeUrl k.seriesSlug k.season k.episode, now + 5 * HOUR_MS, 1, "pending"⟩ := by
  have hlook : lookupRetry (upsertRetry t ⟨k, episodeUrl, now + 5 * HOUR_MS, 1, "pending"⟩) k
      = some ⟨k, episodeUrl, now + 5 * HOUR_MS, 1, "pending"⟩ := lookupRetry_upsert t _
  simp [syncRetryUpdate, scheduleRetryPreUpsert, scheduleRetryInUpsertEpisode, hlook,
    retryIntervals, List.getD]

/-- C5 (amended): a resolution yielding exactly one usable server leaves a
retry-schedule entry for the identity whose attempt count is 1 (not 0) and
whose next-attempt time is now plus five hours (not the first interval of the
3h, 5h, 10h table): the pre-upsert block always writes count
(updateCheck.retry_count || 0) + 1 = 1 at a fixed five-hour delay, and the
block inside upsertEpisode then reads that count back and re-writes count 1 at
the second table interval, again five hours.  A resolution yielding two or
more servers deletes the entry, and the stored attempt count never exceeds
3. -/
theorem retry_schedule_single_server (now : Nat) (t : List RetryRow) (k : RetryKey)
    (episodeUrl : Option String) (serverCount : Nat) :
    (serverCount = 1 →
      lookupRetry (syncRetryUpdate now t k episodeUrl serverCount) k =
        some ⟨k, buildEpisodeUrl k.seriesSlug k.season k.episode,
              now + 5 * HOUR_MS, 1, "pending"⟩)
    ∧ (2 ≤ serverCount →
      lookupRetry (syncRetryUpdate now t k episodeUrl serverCount) k = none)
    ∧ ((∀ r ∈ t, r.retryCount ≤ 3) →
      ∀ r ∈ syncRetryUpdate now t k episodeUrl serverCount, r.retryCount ≤ 3) := by
  refine ⟨?_, ?_, ?_⟩
  · intro hsc; subst hsc
    rw [syncRetryUpdate_one]
    exact lookupRetry_upsert _ _
  · intro hsc
    have h1 : (serverCount == 1) = false := by rw [beq_eq_false_iff_ne]; omega
    have h2 : serverCount > 1 := by omega
    simp only [syncRetryUpdate, scheduleRetryPreUpsert, scheduleRetryInUpsertEpisode, h1,
      Bool.false_eq_true, if_false, if_pos h2]
    exact lookupRetry_delete _ _
  · intro hall r hr
    by_cases hsc : serverCount = 1
    · subst hsc
      rw [syncRetryUpdate_one] at hr
      rcases mem_upsertRetry _ _ _ hr with h | rfl
      · rcases mem_upsertRetry _ _ _ h with h2 | rfl
        · exact hall r h2
        · simp
      · simp
    · have h1 : (serverCount == 1) = false := by rw [beq_eq_false_iff_ne]; omega
      by_cases h2 : serverCount > 1
      · simp only [syncRetryUpdate, scheduleRetryPreUpsert, scheduleRetryInUpsertEpisode, h1,
          Bool.false_eq_true, if_false, if_pos h2] at hr
        exact hall r (mem_deleteRetry _ _ _ (mem_deleteRetry _ _ _ hr))
      · simp only [syncRetryUpdate, scheduleRetryPreUpsert, scheduleRetryInUpsertEpisode, h1,
          Bool.false_eq_true, if_false, if_neg h2] at hr
        exact hall r hr

/-- C5 counterexample: for a fresh identity resolving to exactly one server,
the final retry entry carries attempt count 1 and a now + 5h due time, not
attempt count 0 and the 3h first interval the claim states. -/
theorem retry_schedule_single_server_cex :
    lookupRetry (syncRetryUpdate 0 [] c5Key
        (some "https://toonstream.one/episode/demon-slayer-1x4/") 1) c5Key =
      some ⟨c5Key, some "https://toonstream.one/episode/demon-slayer-1x4/",
            0 + 5 * HOUR_MS, 1, "pending"⟩
    ∧ ¬ ((lookupRetry (syncRetryUpdate 0 [] c5Key
          (some "https://toonstream.one/episode/demon-slayer-1x4/") 1) c5Key).map
          RetryRow.retryCount = some 0)
    ∧ ¬ ((lookupRetry (syncRetryUpdate 0 [] c5Key
          (some "https://toonstream.one/episode/demon-slayer-1x4/") 1) c5Key).map
          RetryRow.retryAt = some (0 + 3 * HOUR_MS)) := by decide

theorem retry_schedule_single_server_witness :
    lookupRetry (syncRetryUpdate 0 [] c5Key
        (some "https://toonstream.one/episode/demon-slayer-1x4/") 1) c5Key =
      some ⟨c5Key, buildEpisodeUrl c5Key.seriesSlug c5Key.season c5Key.episode,
            0 + 5 * HOUR_MS, 1, "pending"⟩
    ∧ lookupRetry (syncRetryUpdate 0
        [⟨c5Key, none, 0, 1, "pending"⟩] c5Key none 2) c5Key = none :=
  ⟨(retry_schedule_single_server 0 [] c5Key
      (some "https://toonstream.one/episode/demon-slayer-1x4/") 1).1 rfl,
   (retry_schedule_single_server 0 [⟨c5Key, none, 0, 1, "pending"⟩] c5Key none 2).2.1
      (by omega)⟩

/-- C6 (amended): the series completeness pass hands to the forced episode
sync exactly the source episodes absent from the store; stored episodes,
including zero-server ones, are never touched by this pass, so for the 1x1-1x5
scenario it inserts 1x5 as new and ends with counters new = 1, updated = 0,
skipped = 0; re-running with no missing episodes is a no-op. -/
theorem series_completeness_backfill (source : List EpisodeRef) (store : List StoredEpisode) :
    (∀ r ∈ (ensureSeriesCompletePass source store).1, episodeInStore store r = false)
    ∧ ((∀ r ∈ source, episodeInStore store r = true) →
        ensureSeriesCompletePass source store = ([], ⟨0, 0, 0⟩))
    ∧ (ensureSeriesCompletePass source store).2 =
        ⟨(missingEpisodes source store).length, 0, 0⟩ := by
  refine ⟨?_, ?_, rfl⟩
  · intro r hr
    have h2 := (List.mem_filter.mp hr).2
    simpa using h2
  · intro hall
    have hnil : missingEpisodes source store = [] := by
      unfold missingEpisodes
      rw [List.filter_eq_nil_iff]
      intro a ha
      simp [hall a ha]
    simp [ensureSeriesCompletePass, hnil]

/-- C6 counterexample: with the source listing 1x1-1x5 and the store holding
1x1-1x3 complete plus 1x4 with zero servers, the pass syncs only 1x5; the
zero-server episode 1x4 is not re-resolved even though checkEpisodeNeedsUpdate
reports it as needing an update, and the counters are (1, 0, 0), not
new = 1, updated = 1, skipped = 3 as claimed. -/
theorem series_completeness_backfill_cex :
    checkEpisodeNeedsUpdate c6Store 1 4 = (true, true)
    ∧ (ensureSeriesCompletePass c6Source c6Store).1 = [⟨1, 5⟩]
    ∧ (⟨1, 4⟩ : EpisodeRef) ∉ (ensureSeriesCompletePass c6Source c6Store).1
    ∧ (ensureSeriesCompletePass c6Source c6Store).2.updatedEpisodes = 0
    ∧ (ensureSeriesCompletePass c6Source c6Store).2.skippedEpisodes = 0
    ∧ (ensureSeriesCompletePass c6Source c6Store).2 ≠ ⟨1, 1, 3⟩ := by decide

theorem series_completeness_backfill_witness :
    ensureSeriesCompletePass c6Source c6StoreFull = ([], ⟨0, 0, 0⟩) :=
  (series_completeness_backfill c6Source c6StoreFull).2.1 (by decide)

theorem getNextProxyScan_all_failed (proxies failed : List String)
    (hall : ∀ p ∈ proxies, failed.contains p = true) :
    ∀ steps idx, idx < proxies.length →
      ∃ j, getNextProxyScan proxies failed steps idx = .exhausted j := by
  intro steps
  induction steps with
  | zero => intro idx _; exact ⟨idx, rfl⟩
  | succ n ih =>
    intro idx hidx
    have hget : proxies.get? idx = some (proxies.get ⟨idx, hidx⟩) := List.get?_eq_get hidx
    have hmem : proxies.get ⟨idx, hidx⟩ ∈ proxies := List.get_mem _ _ _
    have hfail := hall _ hmem
    have hlen : 0 < proxies.length := Nat.lt_of_le_of_lt (Nat.zero_le idx) hidx
    have hmod : (idx + 1) % proxies.length < proxies.length := Nat.mod_lt _ hlen
    rcases ih ((idx + 1) % proxies.length) hmod with ⟨j, hj⟩
    refine ⟨j, ?_⟩
    have hget2 : proxies[idx]? = some proxies[idx] := by simpa using hget
    have hmem2 : proxies[idx] ∈ failed := by simpa using hfail
    simp [getNextProxyScan, hget2, hmem2, hj]

/-- C7: for every enabled manager over a non-empty pool whose entries are all
tombstoned (with the round-robin cursor in range), the next call to
getNextProxy clears every tombstone and returns the first pool entry rather
than failing, and immediately afterwards the failed set is empty. -/
theorem proxy_pool_full_reset (pm : ProxyManager)
    (hu : pm.useProxy = true) (hne : pm.proxies ≠ [])
    (hidx : pm.currentIndex < pm.proxies.length)
    (hall : ∀ p ∈ pm.proxies, pm.failedProxies.contains p = true) :
    (getNextProxy pm).1 = pm.proxies.head?
    ∧ (getNextProxy pm).1.isSome = true
    ∧ (getNextProxy pm).2.failedProxies = [] := by
  have hlen0 : pm.proxies.length ≠ 0 := by
    intro h
    exact hne (List.length_eq_zero.mp h)
  have hbeq : (pm.proxies.length == 0) = false := by rw [beq_eq_false_iff_ne]; exact hlen0
  rcases getNextProxyScan_all_failed pm.proxies pm.failedProxies hall
      pm.proxies.length pm.currentIndex hidx with ⟨j, hj⟩
  have hres : getNextProxy pm =
      (pm.proxies.head?, { pm with failedProxies := [], currentIndex := j }) := by
    simp [getNextProxy, hu, hbeq, hj]
  refine ⟨by rw [hres], ?_, by rw [hres]⟩
  rw [hres]
  cases hp : pm.proxies with
  | nil => exact absurd hp hne
  | cons a l => simp [hp]

theorem proxy_pool_full_reset_witness :
    (getNextProxy c7pm).1 = c7pm.proxies.head?
    ∧ (getNextProxy c7pm).1.isSome = true
    ∧ (getNextProxy c7pm).2.failedProxies = [] :=
  proxy_pool_full_reset c7pm rfl (by decide) (by decide) (by decide)

theorem fetchLoop_succ (att : Nat → AttemptOutcome) (url : String) (remaining attempt : Nat)
    (lastErr : Option String) :
    fetchLoop att url (remaining+1) attempt lastErr =
      match attemptResult (att attempt) with
      | .ok body => .ok body
      | .error msg => fetchLoop att url remaining (attempt+1) (some msg) := rfl

theorem fetchLoop_all_fail (att : Nat → AttemptOutcome) (url : String) (M : Nat → String) :
    ∀ remaining attempt lastErr, 1 ≤ remaining →
      (∀ k, attempt ≤ k → k < attempt + remaining → attemptResult (att k) = .error (M k)) →
      fetchLoop att url remaining attempt lastErr =
        .error (fetchFailMsg url (some (M (attempt + remaining - 1)))) := by
  intro remaining
  induction remaining with
  | zero => intro attempt lastErr h; omega
  | succ n ih =>
    intro attempt lastErr _ hall
    have hatt : attemptResult (att attempt) = .error (M attempt) :=
      hall attempt (Nat.le_refl attempt) (by omega)
    cases n with
    | zero => simp [fetchLoop, hatt]
    | succ n2 =>
      have hrec := ih (attempt + 1) (some (M attempt)) (by omega)
        (fun k hk1 hk2 => hall k (by omega) (by omega))
      have harith : attempt + 1 + (n2 + 1) - 1 = attempt + (n2 + 1 + 1) - 1 := by omega
      rw [fetchLoop_succ, hatt]
      exact hrec.trans (by rw [harith])

theorem fetchLoop_first_ok (att : Nat → AttemptOutcome) (url : String) (M : Nat → String)
    (j : Nat) (b : String) :
    ∀ remaining attempt lastErr, attempt ≤ j → j < attempt + remaining →
      attemptResult (att j) = .ok b →
      (∀ k, attempt ≤ k → k < j → attemptResult (att k) = .error (M k)) →
      fetchLoop att url remaining attempt lastErr = .ok b := by
  intro remaining
  induction remaining with
  | zero => intro attempt lastErr h1 h2; omega
  | succ n ih =>
    intro attempt lastErr hle hlt hok hfail
    by_cases hej : attempt = j
    · subst hej
      simp [fetchLoop, hok]
    · have hltj : attempt < j := Nat.lt_of_le_of_ne hle hej
      have herr : attemptResult (att attempt) = .error (M attempt) :=
        hfail attempt (Nat.le_refl attempt) hltj
      simp only [fetchLoop, herr]
      exact ih (attempt + 1) (some (M attempt)) (by omega) (by omega) hok
        (fun k hk1 hk2 => hfail k (by omega) hk2)

/-- C8: one fetch attempt succeeds exactly when the HTTP status lies in
[200, 400); when every attempt of the run fails, fetchHtmlWithRetry raises a
failure carrying the last error message, and when an attempt succeeds after
only failures, it returns that attempt's body. -/
theorem fetch_retry_semantics (att : Nat → AttemptOutcome) (url : String)
    (retries status : Nat) (body : String) (M : Nat → String) (j : Nat) (b : String) :
    (attemptResult (.httpResponse status body) = .ok body ↔ 200 ≤ status ∧ status < 400)
    ∧ (1 ≤ retries →
        (∀ k, 1 ≤ k → k ≤ retries → attemptResult (att k) = .error (M k)) →
        fetchHtmlWithRetry att url retries = .error (fetchFailMsg url (some (M retries))))
    ∧ (1 ≤ j → j ≤ retries → attemptResult (att j) = .ok b →
        (∀ k, 1 ≤ k → k < j → attemptResult (att k) = .error (M k)) →
        fetchHtmlWithRetry att url retries = .ok b) := by
  refine ⟨?_, ?_, ?_⟩
  · constructor
    · intro h
      by_cases hv : validateStatus status = true
      · have := hv
        simp [validateStatus] at this
        exact this
      · simp [attemptResult, hv] at h
    · intro h
      have hv : validateStatus status = true := by
        simp [validateStatus]
        omega
      simp [attemptResult, hv]
  · intro hpos hall
    have h := fetchLoop_all_fail att url M retries 1 none hpos
      (fun k hk1 hk2 => hall k hk1 (by omega))
    have harith : 1 + retries - 1 = retries := by omega
    rw [harith] at h
    exact h
  · intro hj1 hj2 hok hfail
    exact fetchLoop_first_ok att url M j b retries 1 none hj1 (by omega) hok
      (fun k hk1 hk2 => hfail k hk1 hk2)

theorem fetch_retry_semantics_witness :
    fetchHtmlWithRetry c8att "http://list.example/home" 3 =
      .error (fetchFailMsg "http://list.example/home" (some (c8msgs 3)))
    ∧ fetchHtmlWithRetry c8attOk "http://list.example/home" 3 = .ok "<html>ok</html>" :=
  ⟨(fetch_retry_semantics c8att "http://list.example/home" 3 0 "" c8msgs 0 "").2.1
      (by omega)
      (by
        intro k h1 h2
        interval_cases k <;> rfl),
   (fetch_retry_semantics c8attOk "http://list.example/home" 3 0 ""
      (fun _ => statusErrMsg 500) 2 "<html>ok</html>").2.2 (by omega) (by omega) rfl
      (by
        intro k h1 h2
        interval_cases k <;> rfl)⟩

theorem mem_trembedStep (resolveFn : String → Option String) (s : ServerOption)
    (tail : List Embed) (e : Embed) (he : e ∈ trembedStep resolveFn s tail) :
    e ∈ tail ∨
      (∃ t, e.intermediateUrl = some t ∧ resolveFn t = some e.url
        ∧ (e.url == "") = false ∧ (e.url == t) = false
        ∧ strContains e.url "toonstream.one" = false
        ∧ strContains e.url "trembed" = false) := by
  cases ht : s.trembedUrl with
  | none =>
    simp only [trembedStep, ht] at he
    exact Or.inl he
  | some t =>
    cases hte : (t == "") with
    | true =>
      simp only [trembedStep, ht, hte, if_true] at he
      exact Or.inl he
    | false =>
      cases hr : resolveFn t with
      | none =>
        simp only [trembedStep, ht, hte, Bool.false_eq_true, if_false, hr] at he
        exact Or.inl he
      | some r =>
        by_cases hc : (!(r == "") && !(r == t) && !(strContains r "toonstream.one")
            && !(strContains r "trembed")) = true
        · simp only [trembedStep, ht, hte, Bool.false_eq_true, if_false, hr, hc, if_true] at he
          rcases List.mem_cons.mp he with rfl | hmem
          · simp only [Bool.and_eq_true, Bool.not_eq_true'] at hc
            obtain ⟨⟨⟨h1, h2⟩, h3⟩, h4⟩ := hc
            exact Or.inr ⟨t, rfl, hr, h1, h2, h3, h4⟩
          · exact Or.inl hmem
        · have hc2 : (!(r == "") && !(r == t) && !(strContains r "toonstream.one")
              && !(strContains r "trembed")) = false := by
            cases hx : (!(r == "") && !(r == t) && !(strContains r "toonstream.one")
                && !(strContains r "trembed")) with
            | false => rfl
            | true => exact absurd hx hc
          simp only [trembedStep, ht, hte, Bool.false_eq_true, if_false, hr, hc2] at he
          exact Or.inl he

/-- C9 (amended): every element of the persisted servers list carries a
non-null URL: it is either a direct external candidate URL kept as is, or a
resolved URL that differs from its own intermediate reference and contains
neither the source-site substring nor the trembed marker.  Candidates whose
resolution returns null, returns the intermediate reference unchanged, or
lands on a source-site or trembed URL are excluded; the trid= and trtype=
markers are not checked at this stage. -/
theorem servers_list_usable (resolveFn : String → Option String) (opts : List ServerOption)
    (e : Embed) (he : e ∈ extractEmbedsLoop resolveFn opts) :
    (e.url == "") = false
    ∧ ((e.intermediateUrl = none ∧ ∃ s ∈ opts, s.directUrl = some e.url)
       ∨ (∃ t, e.intermediateUrl = some t ∧ resolveFn t = some e.url
          ∧ (e.url == t) = false
          ∧ strContains e.url "toonstream.one" = false
          ∧ strContains e.url "trembed" = false)) := by
  induction opts with
  | nil => simp [extractEmbedsLoop] at he
  | cons s rest ih =>
    have hweak : e ∈ extractEmbedsLoop resolveFn rest →
        (e.url == "") = false
        ∧ ((e.intermediateUrl = none ∧ ∃ s2 ∈ s :: rest, s2.directUrl = some e.url)
           ∨ (∃ t, e.intermediateUrl = some t ∧ resolveFn t = some e.url
              ∧ (e.url == t) = false
              ∧ strContains e.url "toonstream.one" = false
              ∧ strContains e.url "trembed" = false)) := by
      intro hmem
      have hcon := ih hmem
      refine ⟨hcon.1, ?_⟩
      rcases hcon.2 with ⟨hnone, s2, hs2, hurl⟩ | hright
      · exact Or.inl ⟨hnone, s2, List.mem_cons_of_mem s hs2, hurl⟩
      · exact Or.inr hright
    have hstep : e ∈ trembedStep resolveFn s (extractEmbedsLoop resolveFn rest) →
        (e.url == "") = false
        ∧ ((e.intermediateUrl = none ∧ ∃ s2 ∈ s :: rest, s2.directUrl = some e.url)
           ∨ (∃ t, e.intermediateUrl = some t ∧ resolveFn t = some e.url
              ∧ (e.url == t) = false
              ∧ strContains e.url "toonstream.one" = false
              ∧ strContains e.url "trembed" = false)) := by
      intro hin
      rcases mem_trembedStep resolveFn s _ e hin with hmem | ⟨t, h1, h2, h3, h4, h5, h6⟩
      · exact hweak hmem
      · exact ⟨h3, Or.inr ⟨t, h1, h2, h4, h5, h6⟩⟩
    cases hd : s.directUrl with
    | none =>
      simp only [extractEmbedsLoop, hd] at he
      exact hstep he
    | some d =>
      cases hde : (d == "") with
      | true =>
        simp only [extractEmbedsLoop, hd, hde, if_true] at he
        exact hstep he
      | false =>
        simp only [extractEmbedsLoop, hd, hde, Bool.false_eq_true, if_false] at he
        rcases List.mem_cons.mp he with rfl | hmem
        · exact ⟨hde, Or.inl ⟨rfl, s, List.mem_cons_self s rest, hd⟩⟩
        · exact hweak hmem

theorem servers_list_usable_witness :
    (c9wEmbed.url == "") = false
    ∧ strContains c9wEmbed.url "toonstream.one" = false :=
  ⟨(servers_list_usable c9wResolve c9Opts c9wEmbed (by decide)).1, by decide⟩

/-- C9 counterexample: a candidate whose resolution lands on an external URL
carrying the trid= redirection marker is kept in the servers list (the filter
checks only the toonstream.one and trembed substrings), so resolving back to
a redirection-marker URL does not always exclude the candidate. -/
theorem servers_list_usable_cex :
    extractEmbedsResolved c9Fetch 3 c9Opts =
      [⟨"Server 1", "https://evil.example/?trid=9", "https://evil.example/?trid=9",
        some "https://toonstream.one/?trembed=0&trid=7&trtype=2", 1⟩]
    ∧ strContains "https://evil.example/?trid=9" "trid=" = true
    ∧ needsFollow "https://evil.example/?trid=9" = true := by decide

/-- C10: cleanSlug maps every name whose lowercasing contains one of the
Naruto Shippuden spellings (including the already-normalized slug) to the
fixed slug naruto-shippden; the series and episode URL builders map that
stored slug back to naruto-shippuden; every other non-empty slug is embedded
in the constructed URL unchanged. -/
theorem naruto_slug_alias (name slug : String) (season episode : Nat) :
    ((strContains (strToLower name) "naruto shippūden" = true
      ∨ strContains (strToLower name) "naruto shippuden" = true
      ∨ strContains (strToLower name) "naruto-shippuden" = true
      ∨ strContains (strToLower name) "naruto-shippden" = true) →
      cleanSlug name = "naruto-shippden")
    ∧ buildSeriesUrlFromSlug "naruto-shippden" =
        some "https://toonstream.one/series/naruto-shippuden/"
    ∧ buildEpisodeUrl "naruto-shippden" season episode =
        some (TOONSTREAM_ORIGIN ++ "/episode/" ++ "naruto-shippuden" ++ "-"
          ++ toString season ++ "x" ++ toString episode ++ "/")
    ∧ ((slug == "") = false → (slug == "naruto-shippden") = false →
        buildSeriesUrlFromSlug slug = some (TOONSTREAM_ORIGIN ++ "/series/" ++ slug ++ "/")
        ∧ buildEpisodeUrl slug season episode =
          some (TOONSTREAM_ORIGIN ++ "/episode/" ++ slug ++ "-" ++ toString season ++ "x"
            ++ toString episode ++ "/")) := by
  refine ⟨?_, by decide, rfl, ?_⟩
  · intro h
    cases hx : (name == "") with
    | true =>
      have hempty : name = "" := by simpa using hx
      subst hempty
      rcases h with h|h|h|h <;> exact absurd h (by decide)
    | false =>
      rcases h with h|h|h|h <;> simp [cleanSlug, hx, h]
  · intro h1 h2
    exact ⟨by simp [buildSeriesUrlFromSlug, h1, h2],
           by simp [buildEpisodeUrl, h1, h2]⟩

theorem naruto_slug_alias_witness :
    cleanSlug "Naruto Shippuden 1x5 [eng-jap]" = "naruto-shippden"
    ∧ buildSeriesUrlFromSlug "naruto-shippden" =
        some "https://toonstream.one/series/naruto-shippuden/"
    ∧ buildEpisodeUrl "naruto-shippden" 1 4 =
        some (TOONSTREAM_ORIGIN ++ "/episode/" ++ "naruto-shippuden" ++ "-"
          ++ toString 1 ++ "x" ++ toString 4 ++ "/")
    ∧ buildSeriesUrlFromSlug "demon-slayer" =
        some (TOONSTREAM_ORIGIN ++ "/series/" ++ "demon-slayer" ++ "/") :=
  ⟨(naruto_slug_alias "Naruto Shippuden 1x5 [eng-jap]" "x" 1 1).1
      (Or.inr (Or.inl (by decide))),
   (naruto_slug_alias "x" "x" 1 1).2.1,
   (naruto_slug_alias "x" "x" 1 4).2.2.1,
   ((naruto_slug_alias "x" "demon-slayer" 1 1).2.2.2 (by decide) (by decide)).1⟩
